import Mathlib

/-!
Shallow embedding of the Allpix Squared Geant4 geometry-construction modules:
`GeometryConstructionG4.cpp` (world sizing, per-detector solid construction)
and `PassiveMaterialConstructionG4.cpp` (passive body construction, orientation
resolution, bounding points).  Real-valued quantities of the C++ code (doubles)
are modelled by rationals; the constant `CLHEP::pi` is carried as an explicit
parameter where the source multiplies by it.  Angles are represented by their
cosine/sine pair, which is all the ROOT rotation classes consume.
-/

namespace AllpixG4

/-- A 3-vector, modelling `ROOT::Math::XYZPoint` / `XYZVector` / `G4ThreeVector`. -/
structure XYZ where
  x : ℚ
  y : ℚ
  z : ℚ
deriving DecidableEq, Repr

/-- A 2-vector, modelling `ROOT::Math::XYVector`. -/
structure XY where
  x : ℚ
  y : ℚ
deriving DecidableEq, Repr

/-- Errors thrown by the embedded code: `InvalidValueError(config, key, reason)`
and `ModuleError(reason)` from `core/module/exceptions.h`. -/
inductive GError where
  | invalidValue (key : String) (reason : String)
  | moduleError (reason : String)
deriving DecidableEq, Repr

/-- A Geant4 solid as created by the two modules: `G4Box` (half extents),
`G4Tubs` (inner/outer radius, half height, start/delta phi), `G4Sphere`,
`G4SubtractionSolid` (with the relative translation of the subtrahend) and
`G4UnionSolid`. -/
inductive Solid where
  | box (name : String) (hx hy hz : ℚ)
  | tubs (name : String) (rMin rMax dz sPhi dPhi : ℚ)
  | sphere (name : String) (rMin rMax sPhi dPhi sTheta dTheta : ℚ)
  | subtraction (name : String) (a b : Solid) (relTranslation : XYZ)
  | union (name : String) (a b : Solid)
deriving DecidableEq, Repr

/-- The name a solid was created with. -/
def Solid.name : Solid → String
  | .box n _ _ _ => n
  | .tubs n _ _ _ _ _ => n
  | .sphere n _ _ _ _ _ _ => n
  | .subtraction n _ _ _ => n
  | .union n _ _ => n

/-- A `G4LogicalVolume`: name, the name of the solid it wraps and the material
handle bound at construction.  `none` models a null `G4Material*` handle. -/
structure LogVol where
  name : String
  solidName : String
  material : Option String
deriving DecidableEq, Repr

/-- The registry keys inserted by `GeometryConstructionG4::init_materials`
(lines 126-147): vacuum, air, silicon, epoxy, kapton, copper, solder. -/
def init_material_names : List String :=
  ["vacuum", "air", "silicon", "epoxy", "kapton", "copper", "solder"]

/-- `std::map::operator[]` on the `materials_` map: a registered key yields its
handle, an unregistered key default-inserts and yields a null pointer (`none`).
No exception is ever thrown by this access. -/
def mapBracket (reg : List String) (key : String) : Option String :=
  if key ∈ reg then some key else none

/-! ## World construction (`GeometryConstructionG4::Construct`, lines 57-109) -/

/-- Lines 81-92: `add = h * p; if (add < m) add = m`. -/
def marginAdd (h p m : ℚ) : ℚ :=
  if h * p < m then m else h * p

/-- Result of the world-building part of `Construct`: the computed half world
size, the solids pushed to `solids_` and the world logical volume. -/
structure WorldResult where
  half_world_size : XYZ
  solids : List Solid
  world_log : LogVol
deriving DecidableEq, Repr

/-- `GeometryConstructionG4::Construct`, lines 57-109: check the configured
world material against the registry (lines 62-65), compute the per-axis half
world size as `max(|min|, |max|)` (lines 70-76), apply the margins
(lines 78-95) and create the `World` box and logical volume (lines 99-102). -/
def g4_construct (world_material_cfg : String) (min_coord max_coord : XYZ)
    (margin_percentage : ℚ) (minimum_margin : XYZ) : Except GError WorldResult :=
  if world_material_cfg ∈ init_material_names then
    let hx := max |min_coord.x| |max_coord.x|
    let hy := max |min_coord.y| |max_coord.y|
    let hz := max |min_coord.z| |max_coord.z|
    let hs : XYZ := ⟨hx + marginAdd hx margin_percentage minimum_margin.x,
                     hy + marginAdd hy margin_percentage minimum_margin.y,
                     hz + marginAdd hz margin_percentage minimum_margin.z⟩
    .ok ⟨hs, [Solid.box "World" hs.x hs.y hs.z],
         ⟨"World", "World", mapBracket init_material_names world_material_cfg⟩⟩
  else
    .error (.invalidValue "world_material" "material does not exists, use \x27air\x27 or \x27vacuum\x27")

/-! ## Orientation resolution
(`PassiveMaterialConstructionG4::build`, lines 80-110)

A rotation angle is represented by its cosine and sine, which is exactly what
the ROOT rotation classes `RotationX/Y/Z`, `RotationZYX` and `EulerAngles`
consume; the zero angle is the pair (1, 0). -/

/-- An angle, given by its cosine and sine. -/
structure Angle where
  c : ℚ
  s : ℚ
deriving DecidableEq, Repr

/-- The zero angle. -/
def Angle.zero : Angle := ⟨1, 0⟩

/-- A 3 by 3 rotation matrix (row-major entries), modelling
`ROOT::Math::Rotation3D` / `G4RotationMatrix`. -/
structure Rot3 where
  xx : ℚ
  xy : ℚ
  xz : ℚ
  yx : ℚ
  yy : ℚ
  yz : ℚ
  zx : ℚ
  zy : ℚ
  zz : ℚ
deriving DecidableEq, Repr

/-- Matrix product of two rotations. -/
def Rot3.mul (a b : Rot3) : Rot3 :=
  ⟨a.xx * b.xx + a.xy * b.yx + a.xz * b.zx,
   a.xx * b.xy + a.xy * b.yy + a.xz * b.zy,
   a.xx * b.xz + a.xy * b.yz + a.xz * b.zz,
   a.yx * b.xx + a.yy * b.yx + a.yz * b.zx,
   a.yx * b.xy + a.yy * b.yy + a.yz * b.zy,
   a.yx * b.xz + a.yy * b.yz + a.yz * b.zz,
   a.zx * b.xx + a.zy * b.yx + a.zz * b.zx,
   a.zx * b.xy + a.zy * b.yy + a.zz * b.zy,
   a.zx * b.xz + a.zy * b.yz + a.zz * b.zz⟩

/-- `ROOT::Math::RotationX(a)`. -/
def rotX (a : Angle) : Rot3 := ⟨1, 0, 0, 0, a.c, -a.s, 0, a.s, a.c⟩

/-- `ROOT::Math::RotationY(a)`. -/
def rotY (a : Angle) : Rot3 := ⟨a.c, 0, a.s, 0, 1, 0, -a.s, 0, a.c⟩

/-- `ROOT::Math::RotationZ(a)`. -/
def rotZ (a : Angle) : Rot3 := ⟨a.c, -a.s, 0, a.s, a.c, 0, 0, 0, 1⟩

/-- The three orientation-mode strings accepted by the dispatch on
`orientation_mode` (lines 85-100). -/
def accepted_orientation_modes : List String := ["zyx", "xyz", "zxz"]

/-- Lines 84-100 of `PassiveMaterialConstructionG4::build`: dispatch on the
`orientation_mode` string with the configured angle triple `(vx, vy, vz)`.
`zyx` is `RotationZYX(vx, vy, vz)` (Z first, then Y, then X); `xyz` is
`RotationZ(vz) * RotationY(vy) * RotationX(vx)`; `zxz` is
`EulerAngles(vx, vy, vz)` (Z-X-Z convention); anything else throws
`InvalidValueError` on key `orientation_mode`. -/
def resolve_orientation (mode : String) (vx vy vz : Angle) : Except GError Rot3 :=
  if mode = "zyx" then
    .ok (Rot3.mul (Rot3.mul (rotZ vx) (rotY vy)) (rotX vz))
  else if mode = "xyz" then
    .ok (Rot3.mul (Rot3.mul (rotZ vz) (rotY vy)) (rotX vx))
  else if mode = "zxz" then
    .ok (Rot3.mul (Rot3.mul (rotZ vx) (rotX vy)) (rotZ vz))
  else
    .error (.invalidValue "orientation_mode"
      "orientation_mode should be either \x27zyx\x27, xyz\x27 or \x27zxz\x27")

/-! ## Passive material construction
(`PassiveMaterialConstructionG4::build` and `addPoints`) -/

/-- `std::transform(s.begin(), s.end(), s.begin(), ::tolower)` (line 78):
lowercase every character. -/
def strToLower (s : String) : String := String.mk (s.data.map Char.toLower)

/-- The parsed configuration block of one passive item.  Optional fields model
`config_.get<T>(key, default)`: `none` means the key is absent and the call
site supplies the code's default.  `type` is read with the required
`config_.get<std::string>("type")`. -/
structure PassiveConfig where
  name : String
  position : Option XYZ
  material : Option String
  orientation : Option (Angle × Angle × Angle)
  orientation_mode : Option String
  type : String
  size : Option XY
  thickness : Option ℚ
  inner_radius : Option ℚ
  outer_radius : Option ℚ
  height : Option ℚ
  starting_angle : Option ℚ
  arc_length : Option ℚ
  outer_diameter : Option XY
  inner_diameter : Option XY
  length : Option ℚ
  filling_material : Option String
  starting_angle_phi : Option ℚ
  arc_length_phi : Option ℚ
  starting_angle_theta : Option ℚ
  arc_length_theta : Option ℚ
deriving DecidableEq, Repr

/-- What `build` produced: the solids pushed to `solids_`, the logical volumes,
the physical placement names, and the error thrown (if any).  Solids created
before a throw stay in the lists, mirroring the mutation order of the code. -/
structure PassiveOut where
  solids : List Solid
  logvols : List LogVol
  physvols : List String
  err : Option GError
deriving DecidableEq, Repr

/-- `PassiveMaterialConstructionG4::build` (lines 62-257).  `world_material_g4`
is `world_log->GetMaterial()->GetName()` (line 70), `materials` the keys of the
`materials_` map handed in by the caller, and `clhep_pi` the constant
`CLHEP::pi` the code multiplies the configured angles by.  Material handles are
fetched with `materials_[key]` (`mapBracket`), which never throws and yields a
null handle for unknown keys.  The four shape branches mirror lines 112-256;
the tube branch throws `ModuleError` when an inner diameter reaches the outer
one (lines 176-179) before creating any solid. -/
def passive_build (cfg : PassiveConfig) (world_material_g4 : String)
    (materials : List String) (clhep_pi : ℚ) : PassiveOut :=
  let name := cfg.name
  let passive_material := strToLower (cfg.material.getD world_material_g4)
  let ov := cfg.orientation.getD (Angle.zero, Angle.zero, Angle.zero)
  match resolve_orientation (cfg.orientation_mode.getD "xyz") ov.1 ov.2.1 ov.2.2 with
  | .error e => ⟨[], [], [], some e⟩
  | .ok _rot =>
    if cfg.type = "box" then
      let box_size := cfg.size.getD ⟨0, 0⟩
      let box_thickness := cfg.thickness.getD 0
      let box_volume := Solid.box (name ++ "_volume")
        (box_size.x / 2) (box_size.y / 2) (box_thickness / 2)
      ⟨[box_volume],
       [⟨name ++ "_log", name ++ "_volume", mapBracket materials passive_material⟩],
       [name ++ "_phys"], none⟩
    else if cfg.type = "cylinder" then
      let ir := cfg.inner_radius.getD 0
      let outr := cfg.outer_radius.getD 0
      let h := cfg.height.getD 0
      let sa := cfg.starting_angle.getD 0
      let al := cfg.arc_length.getD 0
      let cylinder_volume := Solid.tubs (name ++ "_volume")
        ir outr (h / 2) (sa * clhep_pi) (al * clhep_pi)
      let shell_log : LogVol := ⟨name ++ "_log", name ++ "_volume",
        mapBracket materials passive_material⟩
      let fm := cfg.filling_material.getD ""
      if fm = "" then
        ⟨[cylinder_volume], [shell_log], [name ++ "_phys"], none⟩
      else
        let cylinder_filling_volume := Solid.tubs (name ++ "_filling_volume")
          0 ir h (sa * clhep_pi) (al * clhep_pi)
        ⟨[cylinder_volume, cylinder_filling_volume],
         [shell_log,
          ⟨name ++ "_filling_log", name ++ "_filling_volume", mapBracket materials fm⟩],
         [name ++ "_phys", name ++ "_filling_phys"], none⟩
    else if cfg.type = "tube" then
      let od := cfg.outer_diameter.getD ⟨0, 0⟩
      let idm := cfg.inner_diameter.getD ⟨0, 0⟩
      let len := cfg.length.getD 0
      if idm.x ≥ od.x ∨ idm.y ≥ od.y then
        ⟨[], [], [], some (.moduleError ("Inner diameter of \x27" ++ name ++
          "\x27 is larget than its outer diameter! Can\x27t construct the tube"))⟩
      else
        let tube_outer_volume := Solid.box (name ++ "_outer_volume")
          (od.x / 2) (od.y / 2) (len / 2)
        let tube_inner_volume := Solid.box (name ++ "_inner_volume")
          (idm.x / 2) (idm.y / 2) (11 / 10 * len / 2)
        let tube_final_volume := Solid.subtraction (name ++ "_final_volume")
          tube_outer_volume tube_inner_volume ⟨0, 0, 0⟩
        let tube_log : LogVol := ⟨name ++ "_log", name ++ "_final_volume",
          mapBracket materials passive_material⟩
        let fm := cfg.filling_material.getD ""
        if fm = "" then
          ⟨[tube_final_volume], [tube_log], [name ++ "_phys"], none⟩
        else
          let tube_filling_volume := Solid.box (name ++ "_filling_volume")
            (idm.x / 2) (idm.y / 2) (len / 2)
          ⟨[tube_final_volume, tube_filling_volume],
           [tube_log,
            ⟨name ++ "filling_log", name ++ "_filling_volume", mapBracket materials fm⟩],
           [name ++ "_phys", name ++ "filling_phys"], none⟩
    else if cfg.type = "sphere" then
      let ir := cfg.inner_radius.getD 0
      let outr := cfg.outer_radius.getD 0
      let sap := cfg.starting_angle_phi.getD 0
      let alp := cfg.arc_length_phi.getD 2
      let sat := cfg.starting_angle_theta.getD 0
      let alt := cfg.arc_length_theta.getD 1
      let sphere_volume := Solid.sphere (name ++ "_volume") ir outr
        (sap * clhep_pi) (alp * clhep_pi) (sat * clhep_pi) (alt * clhep_pi)
      let shell_log : LogVol := ⟨name ++ "_log", name ++ "_volume",
        mapBracket materials passive_material⟩
      let fm := cfg.filling_material.getD ""
      if fm = "" then
        ⟨[sphere_volume], [shell_log], [name ++ "_phys"], none⟩
      else
        let sphere_filling_volume := Solid.sphere (name ++ "_filling_volume") 0 ir
          (sap * clhep_pi) (alp * clhep_pi) (sat * clhep_pi) (alt * clhep_pi)
        ⟨[sphere_volume, sphere_filling_volume],
         [shell_log,
          ⟨name ++ "_filling_log", name ++ "_filling_volume", mapBracket materials fm⟩],
         [name ++ "_phys", name ++ "_filling_phys"], none⟩
    else
      ⟨[], [], [], none⟩

/-- The loop `for i = 0..7` of `addPoints` over the three offset arrays
`offset_x = {1,1,1,1,-1,-1,-1,-1}`, `offset_y = {1,1,-1,-1,1,1,-1,-1}`,
`offset_z = {1,-1,1,-1,1,-1,1,-1}` (lines 261-263). -/
def map8 (f : ℚ → ℚ → ℚ → XYZ) : List XYZ :=
  [f 1 1 1, f 1 1 (-1), f 1 (-1) 1, f 1 (-1) (-1),
   f (-1) 1 1, f (-1) 1 (-1), f (-1) (-1) 1, f (-1) (-1) (-1)]

/-- `PassiveMaterialConstructionG4::addPoints` (lines 259-304), called once on
an empty `points_` member: emit the eight offset-scaled corner points of the
branch matching the configured type, translated by `position`.  The configured
rotation is not consulted. -/
def addPoints (cfg : PassiveConfig) : List XYZ :=
  let p := cfg.position.getD ⟨0, 0, 0⟩
  let boxPts :=
    if cfg.type = "box" then
      let box_size := cfg.size.getD ⟨0, 0⟩
      let box_thickness := cfg.thickness.getD 0
      map8 fun a b c =>
        ⟨p.x + a * box_size.x / 2, p.y + b * box_size.y / 2, p.z + c * box_thickness / 2⟩
    else []
  let tubePts :=
    if cfg.type = "tube" then
      let od := cfg.outer_diameter.getD ⟨0, 0⟩
      let len := cfg.length.getD 0
      map8 fun a b c =>
        ⟨p.x + a * od.x / 2, p.y + b * od.y / 2, p.z + c * len / 2⟩
    else []
  let cylPts :=
    if cfg.type = "cylinder" then
      let outr := cfg.outer_radius.getD 0
      let h := cfg.height.getD 0
      map8 fun a b c =>
        ⟨p.x + a * outr, p.y + b * outr, p.z + c * h / 2⟩
    else []
  let spherePts :=
    if cfg.type = "sphere" then
      let outr := cfg.outer_radius.getD 0
      map8 fun a b c =>
        ⟨p.x + a * outr, p.y + b * outr, p.z + c * outr⟩
    else []
  boxPts ++ tubePts ++ cylPts ++ spherePts

/-! ## Detector construction (`GeometryConstructionG4::build_detectors`) -/

/-- One support layer of a detector model (external read-only input). -/
structure SupportLayer where
  size : XYZ
  center : XYZ
  hole_size : XYZ
  hole_center : XYZ
  has_hole : Bool
  material : String
deriving DecidableEq, Repr

/-- A detector model (external read-only input), with the fields
`build_detectors` reads.  `is_hybrid` models the successful
`dynamic_pointer_cast<HybridPixelDetectorModel>` (line 346). -/
structure DetectorModel where
  size : XYZ
  sensor_size : XYZ
  sensor_center : XYZ
  center : XYZ
  pixel_size : XY
  n_pixels : ℤ × ℤ
  grid_size : XY
  chip_size : XYZ
  chip_center : XYZ
  support_layers : List SupportLayer
  is_hybrid : Bool
  bump_height : ℚ
  bump_sphere_radius : ℚ
  bump_cylinder_radius : ℚ
  bumps_center : XYZ
deriving DecidableEq, Repr

/-- The chip is built only when `model->getChipSize().z() > 1e-9` (line 262). -/
def chip_eps : ℚ := 1 / 1000000000

/-- The support-layer loop (lines 289-341): for layer `i`, push the support box
(line 292); with a hole, also push the hole box — its z half-extent is the full
hole z size, doubling the hole in z (lines 300-305) — and the subtraction solid
(lines 307-314).  Then check the layer material against the registry (throwing
`ModuleError` naming the material, lines 318-321) and build the logical volume,
which is bound to `materials_["epoxy"]` (lines 322-323).  On a throw the solids
already pushed stay, later layers are not processed and no logical volume list
is produced. -/
def build_support_layers (mats : List String) (supportName : String) :
    Nat → List SupportLayer → List Solid × List LogVol × Option GError
  | _, [] => ([], [], none)
  | i, layer :: rest =>
    let support_box := Solid.box (supportName ++ "_" ++ toString i)
      (layer.size.x / 2) (layer.size.y / 2) (layer.size.z / 2)
    let hole_box := Solid.box (supportName ++ "_hole_" ++ toString i)
      (layer.hole_size.x / 2) (layer.hole_size.y / 2) layer.hole_size.z
    let subtraction_solid := Solid.subtraction
      (supportName ++ "_subtraction_" ++ toString i) support_box hole_box
      ⟨layer.hole_center.x - layer.center.x, layer.hole_center.y - layer.center.y,
       layer.hole_center.z - layer.center.z⟩
    let layer_solids :=
      if layer.has_hole then [support_box, hole_box, subtraction_solid]
      else [support_box]
    let solid_name :=
      if layer.has_hole then supportName ++ "_subtraction_" ++ toString i
      else supportName ++ "_" ++ toString i
    if layer.material ∈ mats then
      let support_log : LogVol := ⟨supportName ++ "_log_" ++ toString i,
        solid_name, mapBracket mats "epoxy"⟩
      let r := build_support_layers mats supportName (i + 1) rest
      (layer_solids ++ r.1, support_log :: r.2.1, r.2.2)
    else
      (layer_solids, [],
       some (.moduleError ("Cannot construct a support layer of material \x27" ++
         layer.material ++ "\x27")))

/-- What one iteration of the detector loop produced. -/
structure DetOut where
  solids : List Solid
  logvols : List LogVol
  err : Option GError
deriving DecidableEq, Repr

/-- One iteration of the detector loop of `build_detectors` (lines 166-421)
for the detector named `det_name`.  Names follow lines 154-182; note line 179
assigns `PixelName.second = BoxName.first + "_" + name`, so the pixel solid and
logical volume carry the sensor prefix.  Solids are pushed in source order:
wrapper box (line 194), sensor box (line 219), pixel box (line 236), chip box
when `chip_size.z > 1e-9` (lines 262-268), the support-layer solids, and for a
hybrid model the bump sphere, bump tube, their union and the bump box (lines
357-371) — the latter four named with the detector-independent name prefixes
`bump`/`bumpbox` (`.first`, lines 358-367).  `world_mat` is the world material
handle used for the wrapper and bump-box volumes; `clhep_pi` stands for
`CLHEP::pi`, with `360 * CLHEP::deg = 2 * pi`. -/
def build_detector (mats : List String) (world_mat : Option String)
    (det_name : String) (model : DetectorModel) (clhep_pi : ℚ) : DetOut :=
  let wrapperName := "wrapper_" ++ det_name
  let supportName := "support_" ++ det_name
  let boxName := "sensor_" ++ det_name
  let pixelName := "sensor_" ++ det_name
  let chipName := "chip_" ++ det_name
  let bumpBoxName := "bumpbox_" ++ det_name
  let wrapper_box := Solid.box wrapperName
    (model.size.x / 2) (model.size.y / 2) (model.size.z / 2)
  let wrapper_log : LogVol := ⟨wrapperName ++ "_log", wrapperName, world_mat⟩
  let sensor_box := Solid.box boxName
    (model.sensor_size.x / 2) (model.sensor_size.y / 2) (model.sensor_size.z / 2)
  let sensor_log : LogVol := ⟨boxName ++ "_log", boxName, mapBracket mats "silicon"⟩
  let pixel_box := Solid.box pixelName
    (model.pixel_size.x / 2) (model.pixel_size.y / 2) (model.sensor_size.z / 2)
  let pixel_log : LogVol := ⟨pixelName, pixelName, mapBracket mats "silicon"⟩
  let chip :=
    if model.chip_size.z > chip_eps then
      ([Solid.box chipName
          (model.chip_size.x / 2) (model.chip_size.y / 2) (model.chip_size.z / 2)],
       [(⟨chipName ++ "_log", chipName, mapBracket mats "silicon"⟩ : LogVol)])
    else ([], [])
  let sup := build_support_layers mats supportName 0 model.support_layers
  let base_solids := [wrapper_box, sensor_box, pixel_box] ++ chip.1 ++ sup.1
  let base_logs := [wrapper_log, sensor_log, pixel_log] ++ chip.2 ++ sup.2.1
  match sup.2.2 with
  | some e => ⟨base_solids, base_logs, some e⟩
  | none =>
    if model.is_hybrid then
      let bump_sphere := Solid.sphere "bumpsphere" 0 model.bump_sphere_radius
        0 (2 * clhep_pi) 0 (2 * clhep_pi)
      let bump_tube := Solid.tubs "bumptube" 0 model.bump_cylinder_radius
        (model.bump_height / 2) 0 (2 * clhep_pi)
      let bump := Solid.union "bump" bump_sphere bump_tube
      let bump_box := Solid.box "bumpbox"
        (model.sensor_size.x / 2) (model.sensor_size.y / 2) (model.bump_height / 2)
      let bumps_wrapper_log : LogVol := ⟨bumpBoxName ++ "_log", "bumpbox", world_mat⟩
      let bumps_cell_log : LogVol := ⟨bumpBoxName ++ "_log", "bump",
        mapBracket mats "solder"⟩
      ⟨base_solids ++ [bump_sphere, bump_tube, bump, bump_box],
       base_logs ++ [bumps_wrapper_log, bumps_cell_log], none⟩
    else
      ⟨base_solids, base_logs, none⟩

/-! ## Helper lemmas -/

/-- `add = h * p; if (add < m) add = m` computes `max (h * p) m`. -/
theorem marginAdd_eq_max (h p m : ℚ) : marginAdd h p m = max (h * p) m := by
  unfold marginAdd
  by_cases hc : h * p < m
  · simp [hc, max_eq_right hc.le]
  · simp [hc, max_eq_left (not_lt.mp hc)]

/-- Every accepted orientation-mode string produces a rotation. -/
theorem resolve_orientation_ok_of_mem {mode : String}
    (h : mode ∈ accepted_orientation_modes) (vx vy vz : Angle) :
    ∃ r, resolve_orientation mode vx vy vz = .ok r := by
  simp only [accepted_orientation_modes, List.mem_cons, List.mem_singleton,
    List.not_mem_nil, or_false] at h
  rcases h with h | h | h <;> subst h <;> exact ⟨_, rfl⟩

/-! ## Claim theorems -/

/-- C1: for every pair of extreme coordinates, every margin percentage `p` and
per-axis minimum margin, the computed world half-extent on each axis equals
`h + max (h * p) m` with `h = max |min| |max|` on that axis. -/
theorem world_half_extent_margin_formula (wm : String) (mn mx : XYZ) (p : ℚ)
    (mm : XYZ) (hwm : wm ∈ init_material_names) :
    (g4_construct wm mn mx p mm).map WorldResult.half_world_size =
      .ok ⟨max |mn.x| |mx.x| + max (max |mn.x| |mx.x| * p) mm.x,
           max |mn.y| |mx.y| + max (max |mn.y| |mx.y| * p) mm.y,
           max |mn.z| |mx.z| + max (max |mn.z| |mx.z| * p) mm.z⟩ := by
  simp [g4_construct, hwm, Except.map, marginAdd_eq_max]

/-- Witness for C1 at a concrete scene: extremes (-1,2,-3) and (4,-5,6),
10 percent margin, minimum margins (1,0,2) give half extents (5, 11/2, 8). -/
theorem world_half_extent_margin_formula_witness :
    (g4_construct "air" ⟨-1, 2, -3⟩ ⟨4, -5, 6⟩ (1 / 10) ⟨1, 0, 2⟩).map
        WorldResult.half_world_size = .ok ⟨5, 11 / 2, 8⟩ := by
  have h := world_half_extent_margin_formula "air" ⟨-1, 2, -3⟩ ⟨4, -5, 6⟩ (1 / 10)
    ⟨1, 0, 2⟩ (by decide)
  rw [h]
  norm_num

/-- C6 counterexample: a degenerate empty scene (all extreme coordinates zero,
default margin percentage 0.1 and default minimum margin (0,0,0)) does not
fail: construction succeeds and builds a zero-size `World` box.  No
`EmptyGeometryError` (or any other emptiness check) exists in the code. -/
theorem empty_scene_constructs_zero_world :
    g4_construct "air" ⟨0, 0, 0⟩ ⟨0, 0, 0⟩ (1 / 10) ⟨0, 0, 0⟩ =
      .ok ⟨⟨0, 0, 0⟩, [Solid.box "World" 0 0 0],
           ⟨"World", "World", some "air"⟩⟩ := by
  simp [g4_construct, marginAdd, mapBracket, init_material_names]

/-- C6 amended: world construction never fails on an empty scene.  Its only
failure mode is an unknown world material; on any input it either succeeds or
throws that `InvalidValueError`.  On the degenerate all-zero scene with default
margins it constructs a world of half-extent zero on every axis. -/
theorem empty_scene_world_amended :
    (∀ wm mn mx p mm, (∃ r, g4_construct wm mn mx p mm = .ok r) ∨
        g4_construct wm mn mx p mm = .error (.invalidValue "world_material"
          "material does not exists, use \x27air\x27 or \x27vacuum\x27")) ∧
      (g4_construct "air" ⟨0, 0, 0⟩ ⟨0, 0, 0⟩ (1 / 10) ⟨0, 0, 0⟩).map
        WorldResult.half_world_size = .ok ⟨0, 0, 0⟩ := by
  constructor
  · intro wm mn mx p mm
    by_cases h : wm ∈ init_material_names
    · left
      unfold g4_construct
      rw [if_pos h]
      exact ⟨_, rfl⟩
    · right
      unfold g4_construct
      rw [if_neg h]
  · simp [g4_construct, marginAdd, mapBracket, init_material_names, Except.map]

/-- Witness for C6 amended: with a valid world material (`vacuum`), world
construction on a non-empty scene succeeds. -/
theorem empty_scene_world_amended_witness :
    (∃ r, g4_construct "vacuum" ⟨1, 1, 1⟩ ⟨2, 2, 2⟩ 0 ⟨0, 0, 0⟩ = .ok r) ∨
      g4_construct "vacuum" ⟨1, 1, 1⟩ ⟨2, 2, 2⟩ 0 ⟨0, 0, 0⟩ =
        .error (.invalidValue "world_material"
          "material does not exists, use \x27air\x27 or \x27vacuum\x27") :=
  empty_scene_world_amended.1 "vacuum" ⟨1, 1, 1⟩ ⟨2, 2, 2⟩ 0 ⟨0, 0, 0⟩

/-- A minimal detector model: unit-size wrapper and sensor, one pixel, no chip
(`chip_size.z = 0`), no support layers, not a hybrid model. -/
def minimalModel : DetectorModel :=
  { size := ⟨1, 1, 1⟩, sensor_size := ⟨1, 1, 1⟩, sensor_center := ⟨0, 0, 0⟩,
    center := ⟨0, 0, 0⟩, pixel_size := ⟨1, 1⟩, n_pixels := (1, 1),
    grid_size := ⟨1, 1⟩, chip_size := ⟨0, 0, 0⟩, chip_center := ⟨0, 0, 0⟩,
    support_layers := [], is_hybrid := false, bump_height := 0,
    bump_sphere_radius := 0, bump_cylinder_radius := 0, bumps_center := ⟨0, 0, 0⟩ }

/-- C2: building one detector named `dut` appends solids named
`wrapper_dut`, `sensor_dut`, `sensor_dut`: the pixel solid is created under the
sensor prefix (`PixelName.second = BoxName.first + "_" + name`, line 179), so
the scene's solid list carries two solids of the same name, without any
duplicate-name detection. -/
theorem pixel_solid_duplicates_sensor_name :
    ((build_detector init_material_names (some "air") "dut" minimalModel 0).solids.map
        Solid.name) = ["wrapper_dut", "sensor_dut", "sensor_dut"] ∧
      ((build_detector init_material_names (some "air") "dut" minimalModel 0).solids.map
        Solid.name).count "sensor_dut" = 2 := by
  constructor
  · simp [build_detector, minimalModel, build_support_layers, chip_eps, Solid.name]
    norm_num
  · simp [build_detector, minimalModel, build_support_layers, chip_eps, Solid.name,
      List.count_cons]
    norm_num

/-- C4: for every support layer whose configured material is found in the
registry, the constructed support logical volume is bound to the `epoxy`
handle (`materials_["epoxy"]`, line 323), whatever the layer's configured
material is — the latter is only checked for existence. -/
theorem support_volume_material_is_epoxy (sn : String) (i : Nat)
    (layer : SupportLayer) (rest : List SupportLayer)
    (hmem : layer.material ∈ init_material_names) :
    ((build_support_layers init_material_names sn i (layer :: rest)).2.1.head?).map
        LogVol.material = some (some "epoxy") := by
  have hep : mapBracket init_material_names "epoxy" = some "epoxy" := by decide
  simp [build_support_layers, hmem, hep]

/-- A kapton support layer (with a hole), used to instantiate C4. -/
def kaptonLayer : SupportLayer :=
  { size := ⟨2, 2, 1⟩, center := ⟨0, 0, 0⟩, hole_size := ⟨1, 1, 1⟩,
    hole_center := ⟨0, 0, 0⟩, has_hole := true, material := "kapton" }

/-- Witness for C4: a kapton support layer still gets the epoxy handle. -/
theorem support_volume_material_is_epoxy_witness :
    ((build_support_layers init_material_names "support_dut" 0 [kaptonLayer]).2.1.head?).map
        LogVol.material = some (some "epoxy") :=
  support_volume_material_is_epoxy "support_dut" 0 kaptonLayer [] (by decide)

/-- A concrete non-zero angle: cosine 3/5, sine 4/5. -/
def exAngle : Angle := ⟨3 / 5, 4 / 5⟩

/-- C5 counterexample: the triple `(t, t, t)` with the non-zero angle `t`
(cosine 3/5, sine 4/5) has all three (hence at least two) components non-zero,
yet the `xyz` mode (`Rz(v.z) Ry(v.y) Rx(v.x)`) and the `zyx` mode
(`Rz(v.x) Ry(v.y) Rx(v.z)`) produce the identical rotation, because the first
and third components coincide. -/
theorem euler_xyz_zyx_equal_on_symmetric_triple :
    exAngle ≠ Angle.zero ∧
      resolve_orientation "xyz" exAngle exAngle exAngle =
        resolve_orientation "zyx" exAngle exAngle exAngle := by
  constructor
  · simp only [exAngle, Angle.zero, ne_eq, Angle.mk.injEq, not_and]
    intro h
    norm_num at h
  · rfl

/-- C5 amended: `xyz` and `zyx` applied to the same triple agree whenever the
first and third components are equal (so the claim fails for such triples even
when at least two components are non-zero); the two modes are nevertheless
order-sensitive: they differ, for instance, on the triple `(t, t, 0)` with
cosine 3/5, sine 4/5 — a triple with exactly two non-zero components. -/
theorem euler_modes_order_sensitivity_amended :
    (∀ a b : Angle, resolve_orientation "xyz" a b a =
        resolve_orientation "zyx" a b a) ∧
      resolve_orientation "xyz" exAngle exAngle Angle.zero ≠
        resolve_orientation "zyx" exAngle exAngle Angle.zero := by
  constructor
  · intro a b
    rfl
  · have h1 : resolve_orientation "xyz" exAngle exAngle Angle.zero =
        .ok (Rot3.mul (Rot3.mul (rotZ Angle.zero) (rotY exAngle)) (rotX exAngle)) := rfl
    have h2 : resolve_orientation "zyx" exAngle exAngle Angle.zero =
        .ok (Rot3.mul (Rot3.mul (rotZ exAngle) (rotY exAngle)) (rotX Angle.zero)) := rfl
    rw [h1, h2]
    simp only [ne_eq, Except.ok.injEq]
    intro h
    have hxy := congrArg Rot3.xy h
    simp only [Rot3.mul, rotX, rotY, rotZ, exAngle, Angle.zero] at hxy
    norm_num at hxy

/-- Witness for C5 amended, at the concrete triple `(u, t, u)` with
`u = (12/13, 5/13)` and `t = (3/5, 4/5)`. -/
theorem euler_modes_order_sensitivity_amended_witness :
    resolve_orientation "xyz" ⟨12 / 13, 5 / 13⟩ ⟨3 / 5, 4 / 5⟩ ⟨12 / 13, 5 / 13⟩ =
      resolve_orientation "zyx" ⟨12 / 13, 5 / 13⟩ ⟨3 / 5, 4 / 5⟩ ⟨12 / 13, 5 / 13⟩ :=
  euler_modes_order_sensitivity_amended.1 ⟨12 / 13, 5 / 13⟩ ⟨3 / 5, 4 / 5⟩

/-- C8: orientation resolution throws if and only if the mode string is none
of `xyz`, `zyx`, `zxz`; for each accepted mode a rotation is produced. -/
theorem orientation_mode_error_iff (mode : String) (vx vy vz : Angle) :
    ((∃ e, resolve_orientation mode vx vy vz = .error e) ↔
        ¬(mode = "xyz" ∨ mode = "zyx" ∨ mode = "zxz")) ∧
      ((mode = "xyz" ∨ mode = "zyx" ∨ mode = "zxz") →
        ∃ r, resolve_orientation mode vx vy vz = .ok r) := by
  unfold resolve_orientation
  by_cases h1 : mode = "zyx" <;> by_cases h2 : mode = "xyz" <;>
    by_cases h3 : mode = "zxz" <;> simp [h1, h2, h3]

/-- Witness for C8: the accepted mode `zxz` yields a rotation. -/
theorem orientation_mode_error_iff_witness :
    ∃ r, resolve_orientation "zxz" Angle.zero Angle.zero Angle.zero = .ok r :=
  (orientation_mode_error_iff "zxz" Angle.zero Angle.zero Angle.zero).2
    (Or.inr (Or.inr rfl))

/-- C7: for a passive item of type `tube` (with a resolvable orientation mode),
if the inner diameter reaches the outer diameter on either axis, `build` throws
a `ModuleError` naming the item before creating any solid, logical or physical
volume; otherwise no error is raised. -/
theorem tube_inner_ge_outer_invalid_dimensions (cfg : PassiveConfig)
    (wm : String) (mats : List String) (cpi : ℚ)
    (htype : cfg.type = "tube")
    (hmode : cfg.orientation_mode.getD "xyz" ∈ accepted_orientation_modes) :
    (((cfg.inner_diameter.getD ⟨0, 0⟩).1 ≥ (cfg.outer_diameter.getD ⟨0, 0⟩).1 ∨
        (cfg.inner_diameter.getD ⟨0, 0⟩).2 ≥ (cfg.outer_diameter.getD ⟨0, 0⟩).2) →
      passive_build cfg wm mats cpi =
        ⟨[], [], [], some (.moduleError ("Inner diameter of \x27" ++ cfg.name ++
          "\x27 is larget than its outer diameter! Can\x27t construct the tube"))⟩) ∧
    (¬((cfg.inner_diameter.getD ⟨0, 0⟩).1 ≥ (cfg.outer_diameter.getD ⟨0, 0⟩).1 ∨
        (cfg.inner_diameter.getD ⟨0, 0⟩).2 ≥ (cfg.outer_diameter.getD ⟨0, 0⟩).2) →
      (passive_build cfg wm mats cpi).err = none) := by
  obtain ⟨r, hr⟩ := resolve_orientation_ok_of_mem hmode
    (cfg.orientation.getD (Angle.zero, Angle.zero, Angle.zero)).1
    (cfg.orientation.getD (Angle.zero, Angle.zero, Angle.zero)).2.1
    (cfg.orientation.getD (Angle.zero, Angle.zero, Angle.zero)).2.2
  constructor
  · intro hdim
    rcases hdim with hd | hd
    · simp [passive_build, hr, htype, hd]
    · simp [passive_build, hr, htype, hd]
  · intro hdim
    push_neg at hdim
    have h1 := not_le.mpr hdim.1
    have h2 := not_le.mpr hdim.2
    by_cases hfm : cfg.filling_material.getD "" = "" <;>
      simp [passive_build, hr, htype, h1, h2, hfm]

/-- A tube whose inner diameter exceeds its outer diameter on the x axis. -/
def badTube : PassiveConfig :=
  { name := "pipe", position := none, material := none, orientation := none,
    orientation_mode := none, type := "tube", size := none, thickness := none,
    inner_radius := none, outer_radius := none, height := none,
    starting_angle := none, arc_length := none, outer_diameter := some ⟨1, 3⟩,
    inner_diameter := some ⟨2, 2⟩, length := some 10, filling_material := none,
    starting_angle_phi := none, arc_length_phi := none,
    starting_angle_theta := none, arc_length_theta := none }

/-- Witness for C7 at the concrete tube `pipe` with outer diameter (1, 3) and
inner diameter (2, 2). -/
theorem tube_inner_ge_outer_invalid_dimensions_witness :
    passive_build badTube "G4_AIR" init_material_names 0 =
      ⟨[], [], [], some (.moduleError ("Inner diameter of \x27pipe\x27" ++
        " is larget than its outer diameter! Can\x27t construct the tube"))⟩ :=
  (tube_inner_ge_outer_invalid_dimensions badTube "G4_AIR" init_material_names 0
    rfl (by decide)).1 (by norm_num [badTube])

/-- C9: for a passive cylinder with a filling material, the builder creates
exactly the shell tube — inner/outer radius, half-height `height / 2`, angular
range `(starting_angle * pi, arc_length * pi)` — and a filling tube with inner
radius 0, outer radius the shell's inner radius, the same angular range, and
half-height equal to the full configured height, i.e. twice the shell's
half-height. -/
theorem cylinder_filling_double_height (cfg : PassiveConfig) (wm : String)
    (mats : List String) (cpi : ℚ)
    (htype : cfg.type = "cylinder")
    (hmode : cfg.orientation_mode.getD "xyz" ∈ accepted_orientation_modes)
    (hfill : cfg.filling_material.getD "" ≠ "") :
    (passive_build cfg wm mats cpi).solids =
      [Solid.tubs (cfg.name ++ "_volume") (cfg.inner_radius.getD 0)
         (cfg.outer_radius.getD 0) (cfg.height.getD 0 / 2)
         (cfg.starting_angle.getD 0 * cpi) (cfg.arc_length.getD 0 * cpi),
       Solid.tubs (cfg.name ++ "_filling_volume") 0 (cfg.inner_radius.getD 0)
         (cfg.height.getD 0) (cfg.starting_angle.getD 0 * cpi)
         (cfg.arc_length.getD 0 * cpi)] ∧
      cfg.height.getD 0 = 2 * (cfg.height.getD 0 / 2) := by
  obtain ⟨r, hr⟩ := resolve_orientation_ok_of_mem hmode
    (cfg.orientation.getD (Angle.zero, Angle.zero, Angle.zero)).1
    (cfg.orientation.getD (Angle.zero, Angle.zero, Angle.zero)).2.1
    (cfg.orientation.getD (Angle.zero, Angle.zero, Angle.zero)).2.2
  constructor
  · simp [passive_build, hr, htype, hfill]
  · ring

/-- A closed vacuum-filled cylinder: inner radius 2, outer radius 3, height 10,
full arc. -/
def filledCylinder : PassiveConfig :=
  { name := "beampipe", position := none, material := some "copper",
    orientation := none, orientation_mode := none, type := "cylinder",
    size := none, thickness := none, inner_radius := some 2,
    outer_radius := some 3, height := some 10, starting_angle := none,
    arc_length := some 2, outer_diameter := none, inner_diameter := none,
    length := none, filling_material := some "vacuum",
    starting_angle_phi := none, arc_length_phi := none,
    starting_angle_theta := none, arc_length_theta := none }

/-- Witness for C9 at the concrete cylinder `beampipe`: shell half-height 5,
filling half-height 10. -/
theorem cylinder_filling_double_height_witness :
    (passive_build filledCylinder "G4_AIR" init_material_names (22 / 7)).solids =
      [Solid.tubs "beampipe_volume" 2 3 (10 / 2) (0 * (22 / 7)) (2 * (22 / 7)),
       Solid.tubs "beampipe_filling_volume" 0 2 10 (0 * (22 / 7)) (2 * (22 / 7))] ∧
      (10 : ℚ) = 2 * (10 / 2) :=
  cylinder_filling_double_height filledCylinder "G4_AIR" init_material_names
    (22 / 7) rfl (by decide) (by decide)

/-- C10: for a passive item of type `box`, `addPoints` returns exactly the
eight corner points `(px ± sx/2, py ± sy/2, pz ± t/2)` of the axis-aligned
bounding box, translated by the configured position; the configured rotation
is not consulted (it is not even an input of `addPoints`). -/
theorem addPoints_box_corners (cfg : PassiveConfig) (htype : cfg.type = "box") :
    addPoints cfg =
      [⟨(cfg.position.getD ⟨0, 0, 0⟩).x + (cfg.size.getD ⟨0, 0⟩).x / 2,
        (cfg.position.getD ⟨0, 0, 0⟩).y + (cfg.size.getD ⟨0, 0⟩).y / 2,
        (cfg.position.getD ⟨0, 0, 0⟩).z + cfg.thickness.getD 0 / 2⟩,
       ⟨(cfg.position.getD ⟨0, 0, 0⟩).x + (cfg.size.getD ⟨0, 0⟩).x / 2,
        (cfg.position.getD ⟨0, 0, 0⟩).y + (cfg.size.getD ⟨0, 0⟩).y / 2,
        (cfg.position.getD ⟨0, 0, 0⟩).z - cfg.thickness.getD 0 / 2⟩,
       ⟨(cfg.position.getD ⟨0, 0, 0⟩).x + (cfg.size.getD ⟨0, 0⟩).x / 2,
        (cfg.position.getD ⟨0, 0, 0⟩).y - (cfg.size.getD ⟨0, 0⟩).y / 2,
        (cfg.position.getD ⟨0, 0, 0⟩).z + cfg.thickness.getD 0 / 2⟩,
       ⟨(cfg.position.getD ⟨0, 0, 0⟩).x + (cfg.size.getD ⟨0, 0⟩).x / 2,
        (cfg.position.getD ⟨0, 0, 0⟩).y - (cfg.size.getD ⟨0, 0⟩).y / 2,
        (cfg.position.getD ⟨0, 0, 0⟩).z - cfg.thickness.getD 0 / 2⟩,
       ⟨(cfg.position.getD ⟨0, 0, 0⟩).x - (cfg.size.getD ⟨0, 0⟩).x / 2,
        (cfg.position.getD ⟨0, 0, 0⟩).y + (cfg.size.getD ⟨0, 0⟩).y / 2,
        (cfg.position.getD ⟨0, 0, 0⟩).z + cfg.thickness.getD 0 / 2⟩,
       ⟨(cfg.position.getD ⟨0, 0, 0⟩).x - (cfg.size.getD ⟨0, 0⟩).x / 2,
        (cfg.position.getD ⟨0, 0, 0⟩).y + (cfg.size.getD ⟨0, 0⟩).y / 2,
        (cfg.position.getD ⟨0, 0, 0⟩).z - cfg.thickness.getD 0 / 2⟩,
       ⟨(cfg.position.getD ⟨0, 0, 0⟩).x - (cfg.size.getD ⟨0, 0⟩).x / 2,
        (cfg.position.getD ⟨0, 0, 0⟩).y - (cfg.size.getD ⟨0, 0⟩).y / 2,
        (cfg.position.getD ⟨0, 0, 0⟩).z + cfg.thickness.getD 0 / 2⟩,
       ⟨(cfg.position.getD ⟨0, 0, 0⟩).x - (cfg.size.getD ⟨0, 0⟩).x / 2,
        (cfg.position.getD ⟨0, 0, 0⟩).y - (cfg.size.getD ⟨0, 0⟩).y / 2,
        (cfg.position.getD ⟨0, 0, 0⟩).z - cfg.thickness.getD 0 / 2⟩] := by
  simp [addPoints, map8, htype]
  norm_num [sub_eq_add_neg, neg_div]

/-- The passive box of the spec example: size (10, 10), thickness 2,
position (0, 0, 5). -/
def exampleBox : PassiveConfig :=
  { name := "window", position := some ⟨0, 0, 5⟩, material := none,
    orientation := none, orientation_mode := none, type := "box",
    size := some ⟨10, 10⟩, thickness := some 2, inner_radius := none,
    outer_radius := none, height := none, starting_angle := none,
    arc_length := none, outer_diameter := none, inner_diameter := none,
    length := none, filling_material := none, starting_angle_phi := none,
    arc_length_phi := none, starting_angle_theta := none,
    arc_length_theta := none }

/-- Witness for C10: the spec example box yields the eight points
`(±5, ±5, 4 or 6)`. -/
theorem addPoints_box_corners_witness :
    addPoints exampleBox =
      [⟨5, 5, 6⟩, ⟨5, 5, 4⟩, ⟨5, -5, 6⟩, ⟨5, -5, 4⟩,
       ⟨-5, 5, 6⟩, ⟨-5, 5, 4⟩, ⟨-5, -5, 6⟩, ⟨-5, -5, 4⟩] := by
  have h := addPoints_box_corners exampleBox rfl
  rw [h]
  norm_num [exampleBox]

/-- A passive box whose `material` names a key absent from the registry. -/
def unknownMaterialBox : PassiveConfig :=
  { name := "shield", position := none, material := some "unobtainium",
    orientation := none, orientation_mode := none, type := "box",
    size := none, thickness := none, inner_radius := none, outer_radius := none,
    height := none, starting_angle := none, arc_length := none,
    outer_diameter := none, inner_diameter := none, length := none,
    filling_material := none, starting_angle_phi := none, arc_length_phi := none,
    starting_angle_theta := none, arc_length_theta := none }

/-- C3 counterexample: a passive box referencing the unknown material
`unobtainium` is built without any error; its logical volume silently binds a
null material handle (`materials_[...]` default-inserts a null pointer,
line 119), contradicting the claim that an unknown name always raises a
configuration error. -/
theorem passive_unknown_material_silently_null :
    passive_build unknownMaterialBox "G4_AIR" init_material_names 0 =
      ⟨[Solid.box "shield_volume" 0 0 0],
       [⟨"shield_log", "shield_volume", none⟩], ["shield_phys"], none⟩ := by
  simp [passive_build, unknownMaterialBox, resolve_orientation, strToLower,
    mapBracket, init_material_names]

/-- A support layer whose configured material is not in the registry. -/
def unknownMaterialLayer : SupportLayer :=
  { size := ⟨2, 2, 1⟩, center := ⟨0, 0, 0⟩, hole_size := ⟨0, 0, 0⟩,
    hole_center := ⟨0, 0, 0⟩, has_hole := false, material := "unknownium" }

/-- C3 amended: the world material and the support-layer materials are checked
against the registry — an unknown world material throws `InvalidValueError` on
key `world_material` and an unknown support material throws a `ModuleError`
naming that material — but a passive item's material is fetched with the
default-inserting `materials_[...]` access: for a passive box the build
finishes without error and the logical volume binds whatever handle the map
access yields, which is a null handle for a name outside the registry. -/
theorem material_lookup_amended (wm : String) (mn mx : XYZ) (p : ℚ) (mmm : XYZ)
    (sn : String) (i : Nat) (layer : SupportLayer) (rest : List SupportLayer)
    (cfg : PassiveConfig) (pwm : String) (cpi : ℚ)
    (hwm : wm ∉ init_material_names)
    (hlm : layer.material ∉ init_material_names)
    (hmode : cfg.orientation_mode.getD "xyz" ∈ accepted_orientation_modes)
    (htype : cfg.type = "box") :
    g4_construct wm mn mx p mmm = .error (.invalidValue "world_material"
      "material does not exists, use \x27air\x27 or \x27vacuum\x27") ∧
    (build_support_layers init_material_names sn i (layer :: rest)).2.2 =
      some (.moduleError ("Cannot construct a support layer of material \x27" ++
        layer.material ++ "\x27")) ∧
    (passive_build cfg pwm init_material_names cpi).err = none ∧
    (passive_build cfg pwm init_material_names cpi).logvols =
      [⟨cfg.name ++ "_log", cfg.name ++ "_volume",
        mapBracket init_material_names (strToLower (cfg.material.getD pwm))⟩] := by
  obtain ⟨r, hr⟩ := resolve_orientation_ok_of_mem hmode
    (cfg.orientation.getD (Angle.zero, Angle.zero, Angle.zero)).1
    (cfg.orientation.getD (Angle.zero, Angle.zero, Angle.zero)).2.1
    (cfg.orientation.getD (Angle.zero, Angle.zero, Angle.zero)).2.2
  refine ⟨?_, ?_, ?_, ?_⟩
  · unfold g4_construct
    rw [if_neg hwm]
  · simp [build_support_layers, hlm]
  · simp [passive_build, hr, htype]
  · simp [passive_build, hr, htype]

/-- Witness for C3 amended at concrete inputs: world material `quartz`,
support material `unknownium`, and the passive box `shield` with material
`unobtainium` (which lowercases to itself and is not registered). -/
theorem material_lookup_amended_witness :
    g4_construct "quartz" ⟨0, 0, 0⟩ ⟨0, 0, 0⟩ 0 ⟨0, 0, 0⟩ =
      .error (.invalidValue "world_material"
        "material does not exists, use \x27air\x27 or \x27vacuum\x27") ∧
    (build_support_layers init_material_names "support_dut" 0
        [unknownMaterialLayer]).2.2 =
      some (.moduleError ("Cannot construct a support layer of material \x27" ++
        "unknownium" ++ "\x27")) ∧
    (passive_build unknownMaterialBox "G4_AIR" init_material_names 1).err = none ∧
    (passive_build unknownMaterialBox "G4_AIR" init_material_names 1).logvols =
      [⟨"shield_log", "shield_volume",
        mapBracket init_material_names (strToLower "unobtainium")⟩] :=
  material_lookup_amended "quartz" ⟨0, 0, 0⟩ ⟨0, 0, 0⟩ 0 ⟨0, 0, 0⟩ "support_dut" 0
    unknownMaterialLayer [] unknownMaterialBox "G4_AIR" 1
    (by decide) (by decide) (by decide) rfl

end AllpixG4
